import Mathlib

/-!
Shallow embedding of the TaskManager authorization and task-lifecycle core.

The definitions below translate, clause by clause, the service logic of
`server/src/tasks/tasks.service.ts` (task lifecycle, access policy,
assignment engine) and `server/src/auth/auth.service.ts` (team-invite
token store).  Persisted state is modelled as an explicit `World`
(users and teams) respectively `AuthState` (users, teams, token map,
clock); fallible service methods return `Except Err _`; JavaScript
`Math.round` on the non-negative ratios that occur here is exact
round-half-up, embedded as `roundPct`.  Only the entity fields that the
modelled operations read or write are carried (string payload fields
such as title, description and due date are never consulted by the
logic).  Relations that may be absent on a loaded entity
(`assignedTo`, `createdBy`, `team`) are `Option`-valued; the service
methods' try/catch blocks turn a JavaScript member access on a missing
relation into `false` (access checks) or an internal error (mutations),
which the embedding reproduces.
-/

namespace TM

inductive Role where
  | admin
  | member
deriving DecidableEq, Repr

inductive Status where
  | pending
  | inProgress
  | completed
deriving DecidableEq, Repr

structure User where
  id : Nat
  role : Role
deriving DecidableEq, Repr

structure Team where
  id : Nat
  owner : Nat
  members : List Nat
deriving DecidableEq, Repr

structure Todo where
  text : String
  completed : Bool
deriving DecidableEq, Repr

structure Task where
  id : Nat
  assignedTo : Option Nat
  createdBy : Option Nat
  team : Option Nat
  status : Status
  progress : Nat
  todos : List Todo
deriving DecidableEq, Repr

structure World where
  users : List User
  teams : List Team
deriving DecidableEq, Repr

inductive Err where
  | notFound (msg : String)
  | forbidden (msg : String)
  | badRequest (msg : String)
  | internal
deriving DecidableEq, Repr

/-- Repository lookup `usersRepository.findOne({ where: { id } })`. -/
def findUser (w : World) (i : Nat) : Option User :=
  w.users.find? (fun u => u.id == i)

/-- Repository lookup `teamsRepository.findOne({ where: { id } })`. -/
def findTeam (w : World) (i : Nat) : Option Team :=
  w.teams.find? (fun t => t.id == i)

/-- Source `teamsRepository.find({ where: { owner: { id } } })`, projected to ids. -/
def ownedTeamIds (w : World) (uid : Nat) : List Nat :=
  (w.teams.filter (fun t => t.owner == uid)).map (fun t => t.id)

/-- Source `foundUser.teams.some((t) => t.id === teamId)`: the user's many-to-many
team list contains a team with the given id. -/
def userMemberOfTeamId (w : World) (uid tid : Nat) : Bool :=
  w.teams.any (fun t => t.id == tid && t.members.contains uid)

/-- The shared-team query of `createTask`: teams having both users as
members, in storage enumeration order (the query has no ORDER BY). -/
def sharedTeams (w : World) (a b : Nat) : List Team :=
  w.teams.filter (fun t => t.members.contains a && t.members.contains b)

/-- Source `TasksService.userHasAccessToTeam`. -/
def userHasAccessToTeam (w : World) (u : User) (t : Team) : Bool :=
  if u.role = Role.admin then
    t.owner == u.id
  else
    match findTeam w t.id with
    | none => false
    | some tw => tw.members.contains u.id

/-- Source `TasksService.userHasAccessToTask`.  The catch-all in the source turns
a member access on a missing relation into `false` (fail closed). -/
def userHasAccessToTask (w : World) (u : User) (task : Task) : Bool :=
  match task.team with
  | none =>
    match task.assignedTo with
    | none => false
    | some a =>
      if a == u.id then true
      else
        match task.createdBy with
        | none => false
        | some c => c == u.id
  | some tid =>
    if u.role = Role.admin then
      (ownedTeamIds w u.id).contains tid
    else
      match task.assignedTo with
      | none => false
      | some a => a == u.id

/-- Source `Math.round(100 * c / n)` for natural `c ≤ n`: exact round-half-up
(`Math.round` rounds halves toward +∞, which on non-negatives is
round-half-up), computed as `⌊(100·c + n/2) / n⌋ = ⌊(200·c + n) / (2·n)⌋`. -/
def roundPct (c n : Nat) : Nat :=
  (200 * c + n) / (2 * n)

/-- Source `todos.filter((todo) => todo.completed).length`. -/
def countCompleted (todos : List Todo) : Nat :=
  (todos.filter (fun td => td.completed)).length

/-- Source `todo.completed = true` over a whole checklist. -/
def completeAll (todos : List Todo) : List Todo :=
  todos.map (fun td => { td with completed := true })

/-- Source `todo.completed = false` over a whole checklist. -/
def uncompleteAll (todos : List Todo) : List Todo :=
  todos.map (fun td => { td with completed := false })

/-- Source `TasksService.updateTaskStatus` (after `getTaskById`'s access gate):
sets the status directly; entering `Completed` completes every todo and
forces progress 100; any non-`Completed` write on a task whose progress
is 100 resets progress to 0 and un-completes every todo. -/
def updateTaskStatus (w : World) (task : Task) (status : Status) (u : User) :
    Except Err Task :=
  if userHasAccessToTask w u task then
    let t1 : Task := { task with status := status }
    let t2 : Task :=
      if status = Status.completed then
        { t1 with todos := completeAll t1.todos, progress := 100 }
      else t1
    let t3 : Task :=
      if status ≠ Status.completed ∧ t2.progress = 100 then
        { t2 with progress := 0, todos := uncompleteAll t2.todos }
      else t2
    Except.ok t3
  else Except.error (Err.forbidden "You do not have access to this task")

/-- Source `TasksService.updateTaskChecklist` (after the access gate): replaces
the todo list, recomputes progress as the rounded completed ratio
(0 for an empty list), then derives status from the new progress. -/
def updateTaskChecklist (w : World) (task : Task)
    (items : List (String × Bool)) (u : User) : Except Err Task :=
  if userHasAccessToTask w u task then
    let todos : List Todo := items.map (fun it => { text := it.1, completed := it.2 })
    let progress : Nat :=
      if todos.length > 0 then roundPct (countCompleted todos) todos.length else 0
    let status : Status :=
      if progress = 100 then Status.completed
      else if progress > 0 then Status.inProgress
      else Status.pending
    Except.ok { task with todos := todos, progress := progress, status := status }
  else Except.error (Err.forbidden "You do not have access to this task")

theorem roundPct_le_100 {c n : Nat} (h : c ≤ n) : roundPct c n ≤ 100 := by
  unfold roundPct
  rcases Nat.eq_zero_or_pos n with hn | hn
  · subst hn; simp
  · have h2 : 0 < 2 * n := by omega
    have hlt : 200 * c + n < 101 * (2 * n) := by omega
    have := (Nat.div_lt_iff_lt_mul h2).mpr (by omega : 200 * c + n < 101 * (2 * n))
    omega

theorem countCompleted_le_length (todos : List Todo) :
    countCompleted todos ≤ todos.length := by
  unfold countCompleted
  exact List.length_filter_le _ _

theorem countCompleted_mk (items : List (String × Bool)) :
    countCompleted (items.map (fun it => { text := it.1, completed := it.2 : Todo })) =
      (items.filter (fun it => it.2)).length := by
  induction items with
  | nil => rfl
  | cons a l ih =>
    by_cases h : a.2 <;>
      simp [countCompleted, List.filter_cons, h] at ih ⊢ <;> omega

theorem derivedStatus_spec (p : Nat) (hp : p ≤ 100) :
    ((if p = 100 then Status.completed
      else if p > 0 then Status.inProgress
      else Status.pending) = Status.pending ↔ p = 0)
    ∧ ((if p = 100 then Status.completed
        else if p > 0 then Status.inProgress
        else Status.pending) = Status.inProgress ↔ 0 < p ∧ p < 100)
    ∧ ((if p = 100 then Status.completed
        else if p > 0 then Status.inProgress
        else Status.pending) = Status.completed ↔ p = 100) := by
  by_cases h1 : p = 100 <;> by_cases h2 : 0 < p <;> simp [h1, h2] <;> omega

/-- C2: replacing a task's checklist with any list of items yields
progress = round(100 · completedCount / totalCount) (0 for the empty
list, round-half-up) and a status derived from that progress:
`Pending` iff progress = 0, `InProgress` iff 0 < progress < 100,
`Completed` iff progress = 100. -/
theorem c2_checklist_replace_progress_status
    (w : World) (task : Task) (items : List (String × Bool)) (u : User) (t : Task)
    (h : updateTaskChecklist w task items u = Except.ok t) :
    t.progress =
      (if items.length > 0 then
        roundPct (items.filter (fun it => it.2)).length items.length
      else 0)
    ∧ (t.status = Status.pending ↔ t.progress = 0)
    ∧ (t.status = Status.inProgress ↔ 0 < t.progress ∧ t.progress < 100)
    ∧ (t.status = Status.completed ↔ t.progress = 100) := by
  unfold updateTaskChecklist at h
  split at h
  · simp only [Except.ok.injEq] at h
    subst h
    have hcc := countCompleted_mk items
    have hle := countCompleted_le_length
      (items.map (fun it => { text := it.1, completed := it.2 : Todo }))
    constructor
    · simp [hcc]
    · set p : Nat :=
        (if (items.map (fun it => { text := it.1, completed := it.2 : Todo })).length > 0 then
          roundPct (countCompleted (items.map (fun it => { text := it.1, completed := it.2 : Todo })))
            (items.map (fun it => { text := it.1, completed := it.2 : Todo })).length
        else 0) with hpdef
      have hp : p ≤ 100 := by
        rw [hpdef]
        split
        · exact roundPct_le_100 hle
        · omega
      exact derivedStatus_spec p hp
  · exact absurd h (by simp)

def c2World : World := { users := [{ id := 1, role := Role.admin }], teams := [] }

def c2Task : Task :=
  { id := 1, assignedTo := some 1, createdBy := some 1, team := none,
    status := Status.pending, progress := 0, todos := [] }

def c2Items : List (String × Bool) := [("a", true), ("b", false), ("c", false)]

def c2Actor : User := { id := 1, role := Role.admin }

def c2Result : Task :=
  { id := 1, assignedTo := some 1, createdBy := some 1, team := none,
    status := Status.inProgress, progress := 33,
    todos := [{ text := "a", completed := true },
              { text := "b", completed := false },
              { text := "c", completed := false }] }

/-- Closed witness for the C2 theorem: replacing the checklist of a
concrete task with 3 items of which 1 completed succeeds (the result is
`c2Result`, with progress 33 and status `InProgress`), applying the
theorem at that concrete input. -/
theorem c2_checklist_replace_progress_status_witness :
    c2Result.progress =
      (if c2Items.length > 0 then
        roundPct (c2Items.filter (fun it => it.2)).length c2Items.length
      else 0)
    ∧ (c2Result.status = Status.pending ↔ c2Result.progress = 0)
    ∧ (c2Result.status = Status.inProgress ↔
        0 < c2Result.progress ∧ c2Result.progress < 100)
    ∧ (c2Result.status = Status.completed ↔ c2Result.progress = 100) :=
  c2_checklist_replace_progress_status c2World c2Task c2Items c2Actor c2Result rfl

/-- C3: an explicit status write sets the status directly; transitioning
into `Completed` marks every todo completed and forces progress = 100;
transitioning out of `Completed` when progress was 100 resets progress
to 0 and un-completes all todos. -/
theorem c3_explicit_status_write
    (w : World) (task : Task) (s : Status) (u : User) (t : Task)
    (h : updateTaskStatus w task s u = Except.ok t) :
    t.status = s
    ∧ (s = Status.completed →
        (∀ td ∈ t.todos, td.completed = true) ∧ t.progress = 100)
    ∧ (s ≠ Status.completed → task.status = Status.completed →
        task.progress = 100 →
        t.progress = 0 ∧ ∀ td ∈ t.todos, td.completed = false) := by
  unfold updateTaskStatus at h
  split at h
  · simp only [Except.ok.injEq] at h
    subst h
    by_cases hs : s = Status.completed
    · subst hs
      simp [completeAll]
    · by_cases hp : task.progress = 100 <;>
        simp [hs, hp, uncompleteAll]
  · exact absurd h (by simp)

def c3World : World := { users := [{ id := 1, role := Role.admin }], teams := [] }

def c3Actor : User := { id := 1, role := Role.admin }

def c3Task : Task :=
  { id := 1, assignedTo := some 1, createdBy := some 1, team := none,
    status := Status.pending, progress := 0,
    todos := [{ text := "x", completed := false },
              { text := "y", completed := false }] }

def c3Mid : Task :=
  { id := 1, assignedTo := some 1, createdBy := some 1, team := none,
    status := Status.completed, progress := 100,
    todos := [{ text := "x", completed := true },
              { text := "y", completed := true }] }

def c3End : Task :=
  { id := 1, assignedTo := some 1, createdBy := some 1, team := none,
    status := Status.pending, progress := 0,
    todos := [{ text := "x", completed := false },
              { text := "y", completed := false }] }

/-- Closed witness for the C3 theorem: setting status `Completed` on a
task with 2 incomplete todos completes both todos and forces progress
100; a subsequent write of `Pending` resets progress to 0 and
un-completes both todos. -/
theorem c3_explicit_status_write_witness :
    updateTaskStatus c3World c3Task Status.completed c3Actor = Except.ok c3Mid
    ∧ c3Mid.status = Status.completed
    ∧ c3Mid.progress = 100
    ∧ c3Mid.todos = [{ text := "x", completed := true },
                     { text := "y", completed := true }]
    ∧ updateTaskStatus c3World c3Mid Status.pending c3Actor = Except.ok c3End
    ∧ c3End.status = Status.pending
    ∧ c3End.progress = 0
    ∧ c3End.todos = [{ text := "x", completed := false },
                     { text := "y", completed := false }] := by
  have h1 := c3_explicit_status_write c3World c3Task Status.completed c3Actor c3Mid rfl
  have h2 := c3_explicit_status_write c3World c3Mid Status.pending c3Actor c3End rfl
  exact ⟨rfl, h1.1, (h1.2.1 rfl).2, rfl, rfl, h2.1, (h2.2.2 (by simp) rfl rfl).1, rfl⟩

/-- C10: for every task whose stored progress is 100, an explicit status
write to any non-`Completed` status resets progress to 0 and
un-completes all todos, regardless of the previously stored status —
the reset is keyed on progress = 100, not on leaving `Completed`. -/
theorem c10_reset_keyed_on_progress
    (w : World) (task : Task) (s : Status) (u : User) (t : Task)
    (hs : s ≠ Status.completed) (hp : task.progress = 100)
    (h : updateTaskStatus w task s u = Except.ok t) :
    t.progress = 0 ∧ ∀ td ∈ t.todos, td.completed = false := by
  unfold updateTaskStatus at h
  split at h
  · simp only [Except.ok.injEq] at h
    subst h
    simp [hs, hp, uncompleteAll]
  · exact absurd h (by simp)

def c10World : World := { users := [{ id := 1, role := Role.admin }], teams := [] }

def c10Actor : User := { id := 1, role := Role.admin }

def c10Task : Task :=
  { id := 1, assignedTo := some 1, createdBy := some 1, team := none,
    status := Status.inProgress, progress := 100,
    todos := [{ text := "x", completed := true }] }

def c10End : Task :=
  { id := 1, assignedTo := some 1, createdBy := some 1, team := none,
    status := Status.pending, progress := 0,
    todos := [{ text := "x", completed := false }] }

/-- Closed witness for the C10 theorem: a task stored with status
`InProgress` (not `Completed`) and progress 100, written to `Pending`,
gets progress 0 and its todo un-completed. -/
theorem c10_reset_keyed_on_progress_witness :
    updateTaskStatus c10World c10Task Status.pending c10Actor = Except.ok c10End
    ∧ c10Task.status = Status.inProgress
    ∧ c10End.progress = 0
    ∧ c10End.todos = [{ text := "x", completed := false }] := by
  have h := c10_reset_keyed_on_progress c10World c10Task Status.pending c10Actor c10End
    (by simp) rfl rfl
  exact ⟨rfl, rfl, h.1, rfl⟩

structure CreateTaskDto where
  assignedToId : Option Nat
  teamId : Option Nat
  status : Option Status
  progress : Option Nat
  todos : List String
deriving DecidableEq, Repr

/-- Source `tasksRepository.create({...taskData, assignedTo, createdBy, team})`
plus the todo mapping; `status` and `progress` fall back to the entity
column defaults (`Pending`, 0) when absent from the DTO. -/
def mkNewTask (newId : Nat) (dto : CreateTaskDto) (assignee creator : Nat)
    (team : Option Nat) : Task :=
  { id := newId
    assignedTo := some assignee
    createdBy := some creator
    team := team
    status := dto.status.getD Status.pending
    progress := dto.progress.getD 0
    todos := dto.todos.map (fun s => { text := s, completed := false }) }

/-- Source `TasksService.createTask`.  Control flow follows the source: an
explicit other-user assignment resolves a team (explicit and validated,
or the first shared team); self-assignment or no assignment reaches the
`teamId && !team` block; otherwise the team stays `null`. -/
def createTask (w : World) (newId : Nat) (dto : CreateTaskDto) (u : User) :
    Except Err Task :=
  match dto.assignedToId with
  | some aid =>
    match findUser w aid with
    | none => Except.error (Err.notFound "Assigned user not found")
    | some foundUser =>
      if foundUser.id == u.id then
        match dto.teamId with
        | some tid =>
          match findTeam w tid with
          | none => Except.error (Err.notFound "Team not found")
          | some team =>
            if userHasAccessToTeam w u team then
              Except.ok (mkNewTask newId dto foundUser.id u.id (some team.id))
            else Except.error (Err.forbidden "You do not have access to this team")
        | none => Except.ok (mkNewTask newId dto foundUser.id u.id none)
      else
        match dto.teamId with
        | some tid =>
          match findTeam w tid with
          | none => Except.error (Err.notFound "Team not found")
          | some team =>
            if userHasAccessToTeam w u team then
              if userMemberOfTeamId w foundUser.id team.id then
                Except.ok (mkNewTask newId dto foundUser.id u.id (some team.id))
              else
                Except.error (Err.forbidden "Assigned user is not in the selected team")
            else Except.error (Err.forbidden "You do not have access to this team")
        | none =>
          match sharedTeams w u.id foundUser.id with
          | [] =>
            Except.error (Err.badRequest
              "No shared team found with the assigned user. Please specify a team ID.")
          | t :: _ => Except.ok (mkNewTask newId dto foundUser.id u.id (some t.id))
  | none =>
    match dto.teamId with
    | some tid =>
      match findTeam w tid with
      | none => Except.error (Err.notFound "Team not found")
      | some team =>
        if userHasAccessToTeam w u team then
          Except.ok (mkNewTask newId dto u.id u.id (some team.id))
        else Except.error (Err.forbidden "You do not have access to this team")
    | none => Except.ok (mkNewTask newId dto u.id u.id none)

structure UpdateTaskDto where
  assignedToId : Option Nat
  teamId : Option Nat
  status : Option Status
  progress : Option Nat
deriving DecidableEq, Repr

/-- The `if (updateTaskDto.teamId)` block of `TasksService.updateTask`:
fetch and validate the new team (and, when the patch also carries an
assignee, that assignee's membership in the new team), then move the
task to the team.  The existing assignee is not re-checked. -/
def updateTaskTeamStep (w : World) (task : Task) (dto : UpdateTaskDto) (u : User) :
    Except Err Task :=
  match dto.teamId with
  | none => Except.ok task
  | some tid =>
    match findTeam w tid with
    | none => Except.error (Err.notFound "Team not found")
    | some team =>
      if userHasAccessToTeam w u team then
        match dto.assignedToId with
        | none => Except.ok { task with team := some team.id }
        | some aid =>
          match findUser w aid with
          | none => Except.error (Err.notFound "Assigned user not found")
          | some au =>
            if userMemberOfTeamId w au.id team.id then
              Except.ok { task with team := some team.id }
            else
              Except.error (Err.forbidden "Assigned user is not in the selected team")
      else Except.error (Err.forbidden "You do not have access to this team")

/-- The assignee-change block of `TasksService.updateTask`: when the patch
carries an assignee different from the current one, validate membership
against the task's (possibly just updated) team, or allow only
self-assignment when the task has no team.  Reading `task.assignedTo.id`
on a task whose assignee relation is missing throws in the source, which
the embedding reports as `Err.internal`. -/
def updateTaskAssigneeStep (w : World) (task : Task) (dto : UpdateTaskDto) (u : User) :
    Except Err Task :=
  match dto.assignedToId with
  | none => Except.ok task
  | some aid =>
    match task.assignedTo with
    | none => Except.error Err.internal
    | some cur =>
      if aid == cur then Except.ok task
      else
        match findUser w aid with
        | none => Except.error (Err.notFound "Assigned user not found")
        | some au =>
          match task.team with
          | some tid =>
            if userMemberOfTeamId w au.id tid then
              Except.ok { task with assignedTo := some au.id }
            else Except.error (Err.forbidden "Assigned user is not in the task team")
          | none =>
            if au.id == u.id then Except.ok { task with assignedTo := some au.id }
            else
              Except.error (Err.forbidden "You can only assign personal tasks to yourself")

/-- Source `Object.assign(task, updateTaskDto)` on the modelled fields, followed
by the progress recomputation that runs only when the patch did not
supply `progress` and the task has todos. -/
def updateTaskFinish (task : Task) (dto : UpdateTaskDto) : Task :=
  let t : Task := { task with status := dto.status.getD task.status,
                              progress := dto.progress.getD task.progress }
  match dto.progress with
  | some _ => t
  | none =>
    if t.todos.isEmpty then t
    else { t with progress := roundPct (countCompleted t.todos) t.todos.length }

/-- Source `TasksService.updateTask`: access gate (from `getTaskById`), team
block, assignee block, field assignment, conditional progress
recomputation. -/
def updateTask (w : World) (task : Task) (dto : UpdateTaskDto) (u : User) :
    Except Err Task :=
  if userHasAccessToTask w u task then
    match updateTaskTeamStep w task dto u with
    | Except.error e => Except.error e
    | Except.ok t1 =>
      match updateTaskAssigneeStep w t1 dto u with
      | Except.error e => Except.error e
      | Except.ok t2 => Except.ok (updateTaskFinish t2 dto)
  else Except.error (Err.forbidden "You do not have access to this task")

theorem updateTaskTeamStep_preserves (w : World) (task : Task)
    (dto : UpdateTaskDto) (u : User) (t : Task)
    (h : updateTaskTeamStep w task dto u = Except.ok t) :
    t.status = task.status ∧ t.progress = task.progress ∧ t.todos = task.todos
    ∧ t.assignedTo = task.assignedTo := by
  unfold updateTaskTeamStep at h
  repeat' split at h
  all_goals first
    | (simp only [Except.ok.injEq] at h; subst h; simp_all)
    | exact absurd h (by simp)

theorem updateTaskAssigneeStep_preserves (w : World) (task : Task)
    (dto : UpdateTaskDto) (u : User) (t : Task)
    (h : updateTaskAssigneeStep w task dto u = Except.ok t) :
    t.status = task.status ∧ t.progress = task.progress ∧ t.todos = task.todos
    ∧ t.team = task.team := by
  unfold updateTaskAssigneeStep at h
  repeat' split at h
  all_goals first
    | (simp only [Except.ok.injEq] at h; subst h; simp_all)
    | exact absurd h (by simp)

/-- C9: in `updateTask`, a patch that supplies `progress` stores it as
given (no recomputation from the todos); a patch that omits `progress`
on a task with todos recomputes progress as the rounded completed ratio
of the current todos; and in neither case is `status` derived from
progress — the resulting status is the patched status if supplied,
otherwise the previously stored one. -/
theorem c9_update_progress_status
    (w : World) (task : Task) (dto : UpdateTaskDto) (u : User) (t : Task)
    (h : updateTask w task dto u = Except.ok t) :
    (∀ p, dto.progress = some p → t.progress = p)
    ∧ (dto.progress = none → task.todos ≠ [] →
        t.progress = roundPct (countCompleted task.todos) task.todos.length)
    ∧ t.status = dto.status.getD task.status := by
  unfold updateTask at h
  split at h
  · cases h1 : updateTaskTeamStep w task dto u with
    | error e => simp only [h1] at h; exact absurd h (by simp)
    | ok t1 =>
      cases h2 : updateTaskAssigneeStep w t1 dto u with
      | error e => simp only [h1, h2] at h; exact absurd h (by simp)
      | ok t2 =>
        simp only [h1, h2, Except.ok.injEq] at h
        subst h
        obtain ⟨hs1, hp1, htd1, -⟩ := updateTaskTeamStep_preserves w task dto u t1 h1
        obtain ⟨hs2, hp2, htd2, -⟩ := updateTaskAssigneeStep_preserves w t1 dto u t2 h2
        have htd : t2.todos = task.todos := htd2.trans htd1
        have hst : t2.status = task.status := hs2.trans hs1
        cases hp : dto.progress with
        | some p => unfold updateTaskFinish; simp [hp, hst]
        | none =>
          unfold updateTaskFinish
          by_cases hne : task.todos = [] <;>
            simp [hp, htd, hst, hne, List.isEmpty_iff]
  · exact absurd h (by simp)

def c9World : World := { users := [{ id := 1, role := Role.admin }], teams := [] }

def c9Actor : User := { id := 1, role := Role.admin }

def c9Task : Task :=
  { id := 1, assignedTo := some 1, createdBy := some 1, team := none,
    status := Status.pending, progress := 7,
    todos := [{ text := "x", completed := true },
              { text := "y", completed := false }] }

def c9Patch : UpdateTaskDto :=
  { assignedToId := none, teamId := none, status := none, progress := none }

def c9Result : Task :=
  { id := 1, assignedTo := some 1, createdBy := some 1, team := none,
    status := Status.pending, progress := 50,
    todos := [{ text := "x", completed := true },
              { text := "y", completed := false }] }

/-- Closed witness for the C9 theorem: a patch with no explicit progress
on a task with 1 of 2 todos completed recomputes progress to 50 while
the stored status `Pending` is left untouched. -/
theorem c9_update_progress_status_witness :
    updateTask c9World c9Task c9Patch c9Actor = Except.ok c9Result
    ∧ c9Result.progress = 50
    ∧ c9Result.status = Status.pending := by
  have h := c9_update_progress_status c9World c9Task c9Patch c9Actor c9Result rfl
  exact ⟨rfl, (h.2.1 rfl (by simp [c9Task])).trans (by rfl), h.2.2.trans (by rfl)⟩

theorem findUser_id (w : World) (i : Nat) (u : User) (h : findUser w i = some u) :
    u.id = i := by
  have := List.find?_some h
  simpa using this

def c4World : World :=
  { users := [{ id := 1, role := Role.admin }, { id := 2, role := Role.member }],
    teams := [] }

def c4Actor : User := { id := 1, role := Role.admin }

def c4Dto : CreateTaskDto :=
  { assignedToId := some 2, teamId := none, status := none, progress := none,
    todos := [] }

/-- Counterexample to C4 as stated: a creation request that would violate
the personal-task invariant (admin 1 assigning to user 2 with no teamId
and no shared team) fails with `BadRequest`, not with `Forbidden`. -/
theorem c4_counterexample :
    createTask c4World 10 c4Dto c4Actor =
      Except.error (Err.badRequest
        "No shared team found with the assigned user. Please specify a team ID.")
    ∧ ∀ m, createTask c4World 10 c4Dto c4Actor ≠ Except.error (Err.forbidden m) := by
  refine ⟨rfl, ?_⟩
  intro m hm
  rw [show createTask c4World 10 c4Dto c4Actor = Except.error (Err.badRequest
      "No shared team found with the assigned user. Please specify a team ID.")
    from rfl] at hm
  simp at hm

/-- C4 amended: every created task with `team == null` is self-assigned
(`assignedTo == createdBy`); a creation request naming another assignee
with no teamId and no shared team fails `BadRequest` (not `Forbidden`);
and an update that reassigns a team-null task to an existing user other
than the actor fails `Forbidden`. -/
theorem c4_amended :
    (∀ (w : World) (newId : Nat) (dto : CreateTaskDto) (u : User) (t : Task),
      createTask w newId dto u = Except.ok t → t.team = none →
      t.assignedTo = t.createdBy)
    ∧ (∀ (w : World) (newId : Nat) (dto : CreateTaskDto) (u : User) (aid : Nat)
        (au : User),
      dto.assignedToId = some aid → findUser w aid = some au → aid ≠ u.id →
      dto.teamId = none → sharedTeams w u.id aid = [] →
      createTask w newId dto u =
        Except.error (Err.badRequest
          "No shared team found with the assigned user. Please specify a team ID."))
    ∧ (∀ (w : World) (task : Task) (dto : UpdateTaskDto) (u : User) (aid c : Nat),
      task.team = none → task.assignedTo = some c → task.createdBy = some c →
      userHasAccessToTask w u task = true →
      dto.teamId = none → dto.assignedToId = some aid → aid ≠ u.id →
      (∃ au, findUser w aid = some au) →
      updateTask w task dto u =
        Except.error (Err.forbidden "You can only assign personal tasks to yourself")) := by
  refine ⟨?_, ?_, ?_⟩
  · intro w newId dto u t h hteam
    unfold createTask at h
    repeat' split at h
    all_goals first
      | (simp only [Except.ok.injEq] at h; subst h; simp_all [mkNewTask])
      | exact absurd h (by simp)
  · intro w newId dto u aid au ha hf hne ht hs
    have hid : au.id = aid := findUser_id w aid au hf
    unfold createTask
    simp [ha, hf, ht, hid, hne, hs]
  · intro w task dto u aid c hteam hassg hcreat hacc ht ha hne hau
    obtain ⟨au, hfind⟩ := hau
    have hc : c = u.id := by
      by_contra hcu
      unfold userHasAccessToTask at hacc
      simp only [hteam, hassg, hcreat] at hacc
      simp [hcu] at hacc
    have hid : au.id = aid := findUser_id w aid au hfind
    unfold updateTask updateTaskTeamStep updateTaskAssigneeStep
    simp [hacc, ht, ha, hassg, hteam, hfind, hid, hc, hne]

def c4Task : Task :=
  { id := 3, assignedTo := some 1, createdBy := some 1, team := none,
    status := Status.pending, progress := 0, todos := [] }

def c4UpdDto : UpdateTaskDto :=
  { assignedToId := some 2, teamId := none, status := none, progress := none }

def c4SelfDto : CreateTaskDto :=
  { assignedToId := none, teamId := none, status := none, progress := none,
    todos := [] }

/-- Closed witness for the amended C4 theorem: the no-shared-team
creation concretely fails `BadRequest`; reassigning a concrete personal
task to user 2 concretely fails `Forbidden`; and a concrete personal
creation is self-assigned. -/
theorem c4_amended_witness :
    createTask c4World 10 c4Dto c4Actor =
      Except.error (Err.badRequest
        "No shared team found with the assigned user. Please specify a team ID.")
    ∧ updateTask c4World c4Task c4UpdDto c4Actor =
      Except.error (Err.forbidden "You can only assign personal tasks to yourself")
    ∧ (mkNewTask 11 c4SelfDto 1 1 none).assignedTo =
        (mkNewTask 11 c4SelfDto 1 1 none).createdBy := by
  refine ⟨?_, ?_, ?_⟩
  · exact c4_amended.2.1 c4World 10 c4Dto c4Actor 2 { id := 2, role := Role.member }
      rfl rfl (by decide) rfl rfl
  · exact c4_amended.2.2 c4World c4Task c4UpdDto c4Actor 2 1
      rfl rfl rfl rfl rfl rfl (by decide) ⟨{ id := 2, role := Role.member }, rfl⟩
  · exact c4_amended.1 c4World 11 c4SelfDto c4Actor _ rfl rfl

theorem sharedTeams_head_member (w : World) (a b : Nat) (t0 : Team)
    (rest : List Team) (h : sharedTeams w a b = t0 :: rest) :
    userMemberOfTeamId w a t0.id = true ∧ userMemberOfTeamId w b t0.id = true := by
  have hmem : t0 ∈ sharedTeams w a b := by rw [h]; exact List.mem_cons_self _ _
  unfold sharedTeams at hmem
  rw [List.mem_filter] at hmem
  obtain ⟨hin, hpred⟩ := hmem
  simp only [Bool.and_eq_true] at hpred
  constructor
  · unfold userMemberOfTeamId
    rw [List.any_eq_true]
    refine ⟨t0, hin, ?_⟩
    simp only [beq_self_eq_true, Bool.true_and]
    exact hpred.1
  · unfold userMemberOfTeamId
    rw [List.any_eq_true]
    refine ⟨t0, hin, ?_⟩
    simp only [beq_self_eq_true, Bool.true_and]
    exact hpred.2

theorem assigneeStep_validates (w : World) (task : Task) (dto : UpdateTaskDto)
    (u : User) (aid cur : Nat) (t : Task)
    (ha : dto.assignedToId = some aid) (hcur : task.assignedTo = some cur)
    (hne : aid ≠ cur) (h : updateTaskAssigneeStep w task dto u = Except.ok t) :
    (∀ tid, task.team = some tid → userMemberOfTeamId w aid tid = true)
    ∧ (task.team = none → aid = u.id) := by
  unfold updateTaskAssigneeStep at h
  simp only [ha, hcur] at h
  have hbeq : (aid == cur) = false := by simp [hne]
  simp only [hbeq, Bool.false_eq_true, if_false] at h
  cases hfu : findUser w aid with
  | none => simp only [hfu] at h; exact absurd h (by simp)
  | some au =>
    have hfid : au.id = aid := findUser_id w aid au hfu
    simp only [hfu] at h
    cases httm : task.team with
    | some tid =>
      simp only [httm] at h
      split at h
      case isTrue hmem =>
        refine ⟨?_, ?_⟩
        · intro tid2 htid2
          have e : tid = tid2 := by simpa using htid2
          subst e
          rw [← hfid]
          exact hmem
        · intro hnone
          exact absurd hnone (by simp)
      case isFalse => exact absurd h (by simp)
    | none =>
      simp only [httm] at h
      split at h
      case isTrue heq =>
        refine ⟨?_, fun _ => ?_⟩
        · intro tid2 htid2
          exact absurd htid2 (by simp)
        · rw [← hfid]
          simpa using heq
      case isFalse => exact absurd h (by simp)

def c5World : World :=
  { users := [{ id := 9, role := Role.admin }, { id := 2, role := Role.member },
              { id := 3, role := Role.member }],
    teams := [{ id := 1, owner := 9, members := [2] },
              { id := 2, owner := 9, members := [3] }] }

def c5Actor : User := { id := 9, role := Role.admin }

def c5Task : Task :=
  { id := 1, assignedTo := some 2, createdBy := some 9, team := some 1,
    status := Status.pending, progress := 0, todos := [] }

def c5Dto : UpdateTaskDto :=
  { assignedToId := none, teamId := some 2, status := none, progress := none }

def c5Result : Task :=
  { id := 1, assignedTo := some 2, createdBy := some 9, team := some 2,
    status := Status.pending, progress := 0, todos := [] }

/-- Counterexample to C5 as stated: an update that changes only the team
(admin 9 moves a task assigned to user 2 from team 1 into team 2, whose
members are just user 3) succeeds and leaves a non-member assigned,
instead of failing. -/
theorem c5_counterexample :
    updateTask c5World c5Task c5Dto c5Actor = Except.ok c5Result
    ∧ c5Result.team = some 2
    ∧ c5Result.assignedTo = some 2
    ∧ userMemberOfTeamId c5World 2 2 = false :=
  ⟨rfl, rfl, rfl, rfl⟩

/-- C5 amended: a creation that assigns to another user does ensure the
assignee is a member of the resulting team; an update that changes the
assignee without supplying a teamId re-validates against the task's
current team (self-only when the task has no team); but an update that
changes only the team performs no such re-validation (see the
counterexample), so the invariant is not preserved on that path. -/
theorem c5_amended :
    (∀ (w : World) (newId : Nat) (dto : CreateTaskDto) (u : User) (aid tid : Nat)
        (t : Task),
      dto.assignedToId = some aid → aid ≠ u.id →
      createTask w newId dto u = Except.ok t → t.team = some tid →
      userMemberOfTeamId w aid tid = true)
    ∧ (∀ (w : World) (task : Task) (dto : UpdateTaskDto) (u : User)
        (aid cur : Nat) (t : Task),
      dto.teamId = none → dto.assignedToId = some aid →
      task.assignedTo = some cur → aid ≠ cur →
      updateTask w task dto u = Except.ok t →
      (∀ tid, task.team = some tid → userMemberOfTeamId w aid tid = true)
      ∧ (task.team = none → aid = u.id)) := by
  constructor
  · intro w newId dto u aid tid t ha hne h hteam
    unfold createTask at h
    simp only [ha] at h
    cases hfu : findUser w aid with
    | none => simp only [hfu] at h; exact absurd h (by simp)
    | some fu =>
      have hfid : fu.id = aid := findUser_id w aid fu hfu
      have hbeq : (fu.id == u.id) = false := by simp [hfid, hne]
      simp only [hfu, hbeq, Bool.false_eq_true, if_false] at h
      cases hti : dto.teamId with
      | some tid2 =>
        simp only [hti] at h
        cases hft : findTeam w tid2 with
        | none => simp only [hft] at h; exact absurd h (by simp)
        | some team =>
          simp only [hft] at h
          split at h
          · split at h
            case isTrue hmem =>
              simp only [Except.ok.injEq] at h
              subst h
              simp only [mkNewTask, Option.some.injEq] at hteam
              rw [← hteam, ← hfid]
              exact hmem
            case isFalse => exact absurd h (by simp)
          · exact absurd h (by simp)
      | none =>
        simp only [hti] at h
        cases hsh : sharedTeams w u.id fu.id with
        | nil => simp only [hsh] at h; exact absurd h (by simp)
        | cons t0 rest =>
          simp only [hsh] at h
          simp only [Except.ok.injEq] at h
          subst h
          simp only [mkNewTask, Option.some.injEq] at hteam
          rw [← hteam, ← hfid]
          exact (sharedTeams_head_member w u.id fu.id t0 rest hsh).2
  · intro w task dto u aid cur t ht ha hcur hne h
    unfold updateTask at h
    split at h
    · have hts : updateTaskTeamStep w task dto u = Except.ok task := by
        unfold updateTaskTeamStep; rw [ht]
      simp only [hts] at h
      cases h2 : updateTaskAssigneeStep w task dto u with
      | error e => simp only [h2] at h; exact absurd h (by simp)
      | ok t2 => exact assigneeStep_validates w task dto u aid cur t2 ha hcur hne h2
    · exact absurd h (by simp)

def c5CreateDto : CreateTaskDto :=
  { assignedToId := some 3, teamId := some 2, status := none, progress := none,
    todos := [] }

def c5WorldB : World :=
  { users := [{ id := 9, role := Role.admin }, { id := 2, role := Role.member },
              { id := 4, role := Role.member }],
    teams := [{ id := 1, owner := 9, members := [2, 4] }] }

def c5ActorB : User := { id := 9, role := Role.admin }

def c5TaskB : Task :=
  { id := 1, assignedTo := some 2, createdBy := some 9, team := some 1,
    status := Status.pending, progress := 0, todos := [] }

def c5DtoB : UpdateTaskDto :=
  { assignedToId := some 4, teamId := none, status := none, progress := none }

def c5ResultB : Task :=
  { id := 1, assignedTo := some 4, createdBy := some 9, team := some 1,
    status := Status.pending, progress := 0, todos := [] }

/-- Closed witness for the amended C5 theorem: a concrete cross-user
creation into team 2 yields a member assignee, and a concrete
assignee-only update re-validates membership in the task's team. -/
theorem c5_amended_witness :
    userMemberOfTeamId c5World 3 2 = true
    ∧ updateTask c5WorldB c5TaskB c5DtoB c5ActorB = Except.ok c5ResultB
    ∧ userMemberOfTeamId c5WorldB 4 1 = true := by
  refine ⟨?_, rfl, ?_⟩
  · exact c5_amended.1 c5World 20 c5CreateDto c5Actor 3 2
      (mkNewTask 20 c5CreateDto 3 9 (some 2)) rfl (by decide) rfl rfl
  · exact (c5_amended.2 c5WorldB c5TaskB c5DtoB c5ActorB 4 2 c5ResultB
      rfl rfl rfl (by decide) rfl).1 1 rfl

/-- The access predicate exactly as claim C6 words it (spec-side
definition, for comparison with the source-translated
`userHasAccessToTask`): true when the task has no team and the actor is
its assignee or its creator, or when the task has a team and the actor
is either an Admin who owns that team or the task's assignee. -/
def claimCanViewTask (w : World) (u : User) (task : Task) : Bool :=
  match task.team with
  | none => task.assignedTo == some u.id || task.createdBy == some u.id
  | some tid =>
    (decide (u.role = Role.admin) && (ownedTeamIds w u.id).contains tid)
      || task.assignedTo == some u.id

def c6World : World :=
  { users := [{ id := 5, role := Role.admin }, { id := 7, role := Role.admin }],
    teams := [{ id := 1, owner := 5, members := [7] }] }

def c6Actor : User := { id := 7, role := Role.admin }

def c6Task : Task :=
  { id := 1, assignedTo := some 7, createdBy := some 5, team := some 1,
    status := Status.pending, progress := 0, todos := [] }

/-- Counterexample to C6 as stated: admin 7 is the assignee of a team
task in team 1, which is owned by admin 5; the claim's predicate grants
access (the actor is the task's assignee), but the code denies it (for
Admin actors only team ownership is consulted). -/
theorem c6_counterexample :
    claimCanViewTask c6World c6Actor c6Task = true
    ∧ userHasAccessToTask c6World c6Actor c6Task = false :=
  ⟨rfl, rfl⟩

/-- C6 amended: `userHasAccessToTask` returns true exactly when the task
has no team and the actor is the assignee, or the assignee relation is
loaded and the actor is the creator; or the task has a team and the
actor is an Admin owning that team, or a non-Admin assignee.  Missing
relations resolve to false (fail closed), and an Admin who is merely
the assignee of a team task is denied. -/
theorem c6_amended (w : World) (u : User) (task : Task) :
    userHasAccessToTask w u task = true ↔
      (task.team = none ∧
        (task.assignedTo = some u.id
          ∨ (task.assignedTo ≠ none ∧ task.createdBy = some u.id)))
      ∨ (∃ tid, task.team = some tid ∧
          ((u.role = Role.admin ∧ tid ∈ ownedTeamIds w u.id)
            ∨ (u.role ≠ Role.admin ∧ task.assignedTo = some u.id))) := by
  unfold userHasAccessToTask
  cases httm : task.team with
  | none =>
    cases hass : task.assignedTo with
    | none => simp
    | some a =>
      by_cases hau : a = u.id
      · subst hau; simp
      · cases hcr : task.createdBy with
        | none => simp [hau]
        | some c => by_cases hcu : c = u.id <;> simp [hau, hcu]
  | some tid =>
    by_cases hr : u.role = Role.admin
    · by_cases hown : tid ∈ ownedTeamIds w u.id <;> simp [hr, hown]
    · cases hass : task.assignedTo with
      | none => simp [hr]
      | some a => by_cases hau : a = u.id <;> simp [hr, hau]

/-- Closed witness for the amended C6 theorem: admin 5, owner of team 1,
may view the concrete team task. -/
theorem c6_amended_witness :
    userHasAccessToTask c6World { id := 5, role := Role.admin } c6Task = true :=
  (c6_amended c6World { id := 5, role := Role.admin } c6Task).mpr
    (Or.inr ⟨1, rfl, Or.inl ⟨rfl, by decide⟩⟩)

def c8World : World :=
  { users := [{ id := 1, role := Role.admin }, { id := 2, role := Role.member }],
    teams := [{ id := 5, owner := 1, members := [1, 2] },
              { id := 2, owner := 1, members := [1, 2] }] }

def c8Actor : User := { id := 1, role := Role.admin }

def c8Dto : CreateTaskDto :=
  { assignedToId := some 2, teamId := none, status := none, progress := none,
    todos := [] }

def c8Result : Task :=
  { id := 10, assignedTo := some 2, createdBy := some 1, team := some 5,
    status := Status.pending, progress := 0, todos := [] }

/-- Counterexample to C8 as stated: admin 1 and user 2 share teams with
ids 5 and 2 (stored in that order); the engine selects team 5 — the
first query result — not the shared team with the lowest id (2). -/
theorem c8_counterexample :
    createTask c8World 10 c8Dto c8Actor = Except.ok c8Result
    ∧ c8Result.team = some 5
    ∧ (sharedTeams c8World 1 2).map (fun t => t.id) = [5, 2] :=
  ⟨rfl, rfl, rfl⟩

/-- C8 amended: when an Admin creates a task for another user without a
teamId, the engine selects the *first* shared team in storage
enumeration order (the head of the unordered shared-team query), not
necessarily the lowest team id; when the two users share no team,
creation fails `BadRequest` asking for an explicit teamId. -/
theorem c8_amended (w : World) (newId : Nat) (dto : CreateTaskDto) (u : User)
    (aid : Nat) (au : User)
    (ha : dto.assignedToId = some aid) (hf : findUser w aid = some au)
    (hne : aid ≠ u.id) (ht : dto.teamId = none) :
    (sharedTeams w u.id aid = [] →
      createTask w newId dto u =
        Except.error (Err.badRequest
          "No shared team found with the assigned user. Please specify a team ID."))
    ∧ (∀ t0 rest, sharedTeams w u.id aid = t0 :: rest →
      createTask w newId dto u =
        Except.ok (mkNewTask newId dto aid u.id (some t0.id))) := by
  have hid : au.id = aid := findUser_id w aid au hf
  have hbeq : (au.id == u.id) = false := by simp [hid, hne]
  constructor
  · intro hs
    unfold createTask
    simp only [ha, hf, hbeq, Bool.false_eq_true, if_false, ht]
    rw [hid, hs]
  · intro t0 rest hs
    unfold createTask
    simp only [ha, hf, hbeq, Bool.false_eq_true, if_false, ht]
    rw [hid, hs]

def c8WorldE : World :=
  { users := [{ id := 1, role := Role.admin }, { id := 2, role := Role.member }],
    teams := [] }

/-- Closed witness for the amended C8 theorem: with shared teams stored
as [5, 2] the concrete creation lands in team 5; with no shared team it
concretely fails `BadRequest`. -/
theorem c8_amended_witness :
    createTask c8World 10 c8Dto c8Actor =
      Except.ok (mkNewTask 10 c8Dto 2 1 (some 5))
    ∧ createTask c8WorldE 10 c8Dto c8Actor =
      Except.error (Err.badRequest
        "No shared team found with the assigned user. Please specify a team ID.") := by
  constructor
  · exact (c8_amended c8World 10 c8Dto c8Actor 2 { id := 2, role := Role.member }
      rfl rfl (by decide) rfl).2 { id := 5, owner := 1, members := [1, 2] }
      [{ id := 2, owner := 1, members := [1, 2] }] rfl
  · exact (c8_amended c8WorldE 10 c8Dto c8Actor 2 { id := 2, role := Role.member }
      rfl rfl (by decide) rfl).1 rfl

/-- Token TTL: `expiresAt.setHours(expiresAt.getHours() + 24)`, modelled
in hours on a `Nat` clock. -/
def tokenTtlHours : Nat := 24

structure TokenData where
  adminId : Nat
  teamId : Nat
  expiresAt : Nat
  purpose : Option String
deriving DecidableEq, Repr

/-- The auth service's state: persisted users and teams, the in-memory
`TEAM_INVITE_TOKENS` map (as an association list; `Map.set` prepends,
`Map.get` takes the first match, `Map.delete` drops the key), and the
current time. -/
structure AuthState where
  users : List User
  teams : List Team
  tokens : List (String × TokenData)
  now : Nat
deriving DecidableEq, Repr

/-- Source `usersRepository.findOne({ where: { id, role: UserRole.ADMIN } })`. -/
def findAdmin (s : AuthState) (i : Nat) : Option User :=
  s.users.find? (fun u => u.id == i && decide (u.role = Role.admin))

/-- Source `teamsRepository.findOne({ where: { id } })` inside the auth service. -/
def findTeamAuth (s : AuthState) (i : Nat) : Option Team :=
  s.teams.find? (fun t => t.id == i)

/-- Source `TEAM_INVITE_TOKENS.get(token)`. -/
def lookupToken (s : AuthState) (token : String) : Option TokenData :=
  (s.tokens.find? (fun p => p.1 == token)).map (fun p => p.2)

/-- Source `TEAM_INVITE_TOKENS.delete(token)`. -/
def removeToken (s : AuthState) (token : String) : AuthState :=
  { s with tokens := s.tokens.filter (fun p => !(p.1 == token)) }

/-- Source `TEAM_INVITE_TOKENS.set(token, {...})`. -/
def setToken (s : AuthState) (token : String) (d : TokenData) : AuthState :=
  { s with tokens := (token, d) :: s.tokens }

/-- Source `AuthService.generateTeamInviteToken` (the freshly generated `uuidv4`
string is passed in): re-verifies that the caller is an actual Admin
(`NotFound` otherwise); with an explicit `teamId`, a missing team or a
team the admin neither owns nor belongs to yields `Forbidden`; with no
`teamId`, the admin's first owned team is used, and owning none yields
`NotFound`. -/
def generateTeamInviteToken (s : AuthState) (adminId : Nat) (teamId : Option Nat)
    (purpose : Option String) (token : String) : Except Err (String × AuthState) :=
  match findAdmin s adminId with
  | none => Except.error (Err.notFound "Admin not found or user is not an admin")
  | some _ =>
    match teamId with
    | some tid =>
      match findTeamAuth s tid with
      | none => Except.error (Err.forbidden "You do not have access to this team")
      | some team =>
        if team.owner == adminId || team.members.contains adminId then
          Except.ok (token,
            setToken s token
              { adminId := adminId, teamId := tid,
                expiresAt := s.now + tokenTtlHours, purpose := purpose })
        else Except.error (Err.forbidden "You do not have access to this team")
    | none =>
      match s.teams.filter (fun t => t.owner == adminId) with
      | [] => Except.error (Err.notFound "Admin does not own any teams")
      | t :: _ =>
        Except.ok (token,
          setToken s token
            { adminId := adminId, teamId := t.id,
              expiresAt := s.now + tokenTtlHours, purpose := purpose })

/-- Source `AuthService.validateTeamInviteToken`: unknown token fails; an
expired token is removed and fails; a token whose admin is no longer an
Admin fails (without removal); a token whose team no longer exists is
removed and fails; otherwise the grant is returned and — as in the
source — the token is NOT removed from the store. -/
def validateTeamInviteToken (s : AuthState) (token : String) :
    Option (Nat × Nat) × AuthState :=
  match lookupToken s token with
  | none => (none, s)
  | some d =>
    if s.now > d.expiresAt then (none, removeToken s token)
    else
      match findAdmin s d.adminId with
      | none => (none, s)
      | some _ =>
        match findTeamAuth s d.teamId with
        | some _ => (some (d.adminId, d.teamId), s)
        | none => (none, removeToken s token)

def c1State : AuthState :=
  { users := [{ id := 1, role := Role.admin }],
    teams := [{ id := 1, owner := 1, members := [1] }],
    tokens := [("tok",
      { adminId := 1, teamId := 1, expiresAt := 24, purpose := none })],
    now := 0 }

/-- C1 (code-bug evidence): a valid, unexpired team-invite token for an
existing team and a still-Admin issuer validates successfully, but the
store is returned unchanged — the token is not consumed — and a second
redemption of the very same token succeeds again, where the claim (and
spec §4.1/§8) requires the second attempt to fail `InvalidToken`. -/
theorem c1_token_not_consumed :
    (validateTeamInviteToken c1State "tok").1 = some (1, 1)
    ∧ (validateTeamInviteToken c1State "tok").2 = c1State
    ∧ (validateTeamInviteToken
        (validateTeamInviteToken c1State "tok").2 "tok").1 = some (1, 1) :=
  ⟨rfl, rfl, rfl⟩

def c7State : AuthState :=
  { users := [{ id := 1, role := Role.admin }], teams := [], tokens := [],
    now := 0 }

/-- Counterexample to C7 as stated: admin 1 requests a token for the
nonexistent team 99; the code fails with `Forbidden`
("You do not have access to this team"), not with `NotFound` as the
claim requires for a nonexistent explicit teamId. -/
theorem c7_counterexample :
    generateTeamInviteToken c7State 1 (some 99) none "tok" =
      Except.error (Err.forbidden "You do not have access to this team")
    ∧ ∀ m, generateTeamInviteToken c7State 1 (some 99) none "tok" ≠
        Except.error (Err.notFound m) := by
  refine ⟨rfl, ?_⟩
  intro m hm
  rw [show generateTeamInviteToken c7State 1 (some 99) none "tok" =
      Except.error (Err.forbidden "You do not have access to this team")
    from rfl] at hm
  simp at hm

/-- C7 amended: `generateTeamInviteToken` re-verifies the caller is an
actual Admin (`NotFound` otherwise); an explicit `teamId` succeeds when
the admin owns *or is a member of* the team, and fails `Forbidden` —
not `NotFound` — both when that team does not exist and when the team
exists but the admin neither owns it nor belongs to it; with `teamId` omitted, the first owned team is
used, and an admin owning no team fails `NotFound` — not
`NotAuthorized`/`Forbidden`. -/
theorem c7_amended :
    (∀ (s : AuthState) (adminId : Nat) (teamId : Option Nat) (p : Option String)
        (tok : String),
      findAdmin s adminId = none →
      generateTeamInviteToken s adminId teamId p tok =
        Except.error (Err.notFound "Admin not found or user is not an admin"))
    ∧ (∀ (s : AuthState) (adminId tid : Nat) (p : Option String) (tok : String)
        (a : User),
      findAdmin s adminId = some a → findTeamAuth s tid = none →
      generateTeamInviteToken s adminId (some tid) p tok =
        Except.error (Err.forbidden "You do not have access to this team"))
    ∧ (∀ (s : AuthState) (adminId tid : Nat) (p : Option String) (tok : String)
        (a : User) (team : Team),
      findAdmin s adminId = some a → findTeamAuth s tid = some team →
      (team.owner = adminId ∨ adminId ∈ team.members) →
      generateTeamInviteToken s adminId (some tid) p tok =
        Except.ok (tok, setToken s tok
          { adminId := adminId, teamId := tid,
            expiresAt := s.now + tokenTtlHours, purpose := p }))
    ∧ (∀ (s : AuthState) (adminId : Nat) (p : Option String) (tok : String)
        (a : User),
      findAdmin s adminId = some a →
      s.teams.filter (fun t => t.owner == adminId) = [] →
      generateTeamInviteToken s adminId none p tok =
        Except.error (Err.notFound "Admin does not own any teams"))
    ∧ (∀ (s : AuthState) (adminId : Nat) (p : Option String) (tok : String)
        (a : User) (t0 : Team) (rest : List Team),
      findAdmin s adminId = some a →
      s.teams.filter (fun t => t.owner == adminId) = t0 :: rest →
      generateTeamInviteToken s adminId none p tok =
        Except.ok (tok, setToken s tok
          { adminId := adminId, teamId := t0.id,
            expiresAt := s.now + tokenTtlHours, purpose := p }))
    ∧ (∀ (s : AuthState) (adminId tid : Nat) (p : Option String) (tok : String)
        (a : User) (team : Team),
      findAdmin s adminId = some a → findTeamAuth s tid = some team →
      team.owner ≠ adminId → adminId ∉ team.members →
      generateTeamInviteToken s adminId (some tid) p tok =
        Except.error (Err.forbidden "You do not have access to this team")) := by
  refine ⟨?_, ?_, ?_, ?_, ?_, ?_⟩
  · intro s adminId teamId p tok h
    unfold generateTeamInviteToken
    simp only [h]
  · intro s adminId tid p tok a h hft
    unfold generateTeamInviteToken
    simp only [h, hft]
  · intro s adminId tid p tok a team h hft hacc
    unfold generateTeamInviteToken
    have hcond : (team.owner == adminId || team.members.contains adminId) = true := by
      rcases hacc with hacc | hacc <;> simp [hacc]
    simp only [h, hft, hcond, if_true]
  · intro s adminId p tok a h hown
    unfold generateTeamInviteToken
    simp only [h, hown]
  · intro s adminId p tok a t0 rest h hown
    unfold generateTeamInviteToken
    simp only [h, hown]
  · intro s adminId tid p tok a team h hft hown hmem
    unfold generateTeamInviteToken
    have hcond : (team.owner == adminId || team.members.contains adminId) = false := by
      simp [hown, hmem]
    simp only [h, hft, hcond, Bool.false_eq_true, if_false]

def c7StateC : AuthState :=
  { users := [{ id := 1, role := Role.admin }, { id := 3, role := Role.admin }],
    teams := [{ id := 6, owner := 3, members := [4] }],
    tokens := [], now := 0 }

def c7StateB : AuthState :=
  { users := [{ id := 1, role := Role.admin }],
    teams := [{ id := 4, owner := 1, members := [] }],
    tokens := [], now := 0 }

/-- Closed witness for the amended C7 theorem: each branch exercised
concretely — missing admin, nonexistent explicit team, owned explicit
team, no owned team, default first-owned-team selection, and an
existing explicit team (id 6, owned by admin 3, members [4]) that
admin 1 neither owns nor belongs to, which fails `Forbidden`. -/
theorem c7_amended_witness :
    generateTeamInviteToken c7StateB 2 none none "t1" =
      Except.error (Err.notFound "Admin not found or user is not an admin")
    ∧ generateTeamInviteToken c7State 1 (some 99) none "t2" =
      Except.error (Err.forbidden "You do not have access to this team")
    ∧ generateTeamInviteToken c7StateB 1 (some 4) none "t3" =
      Except.ok ("t3", setToken c7StateB "t3"
        { adminId := 1, teamId := 4, expiresAt := 24, purpose := none })
    ∧ generateTeamInviteToken c7State 1 none none "t4" =
      Except.error (Err.notFound "Admin does not own any teams")
    ∧ generateTeamInviteToken c7StateB 1 none none "t5" =
      Except.ok ("t5", setToken c7StateB "t5"
        { adminId := 1, teamId := 4, expiresAt := 24, purpose := none })
    ∧ generateTeamInviteToken c7StateC 1 (some 6) none "t6" =
      Except.error (Err.forbidden "You do not have access to this team") := by
  refine ⟨?_, ?_, ?_, ?_, ?_, ?_⟩
  · exact c7_amended.1 c7StateB 2 none none "t1" rfl
  · exact c7_amended.2.1 c7State 1 99 none "t2" { id := 1, role := Role.admin } rfl rfl
  · exact c7_amended.2.2.1 c7StateB 1 4 none "t3" { id := 1, role := Role.admin }
      { id := 4, owner := 1, members := [] } rfl rfl (Or.inl rfl)
  · exact c7_amended.2.2.2.1 c7State 1 none "t4" { id := 1, role := Role.admin } rfl rfl
  · exact c7_amended.2.2.2.2.1 c7StateB 1 none "t5" { id := 1, role := Role.admin }
      { id := 4, owner := 1, members := [] } [] rfl rfl
  · exact c7_amended.2.2.2.2.2 c7StateC 1 6 none "t6" { id := 1, role := Role.admin }
      { id := 6, owner := 3, members := [4] } rfl rfl (by decide) (by decide)

end TM
